import Mathlib

/-!
Verification of the agent-orchestration engine of the bank-multi-agent
repository (src/graph.py, src/state.py, src/agents/*, src/tools/*).

The Python code is shallowly embedded: the conversation state (`AgentState`,
src/state.py) is a Lean structure, the tool-execution node (`tool_node`,
src/graph.py lines 106-164) and its per-tool state-delta handlers
(`_handle_auth_result`, `_handle_score_update`, `_handle_limit_increase`)
are Lean functions, and the orchestration loop (`build_graph` wiring of
agent nodes, `should_continue` and `route_after_tools`) is a fuel-indexed
loop `advanceLoop`.  External effects are made explicit:

* the language-model backend is an oracle `llm : String → List Msg → LLMResult`
  (a reply with optional tool calls, or a raised error);
* each tool invocation for the i-th call of a batch is an oracle value
  `Outcome` (`ok result` for a returned result string, `err` for a raised
  exception, which `tool_node` converts into the fixed system-error string);
* Python floats are modelled as exact decimals in normal form
  (`PyFloat`: an integer mantissa scaled by a power of ten), since the
  engine never does float arithmetic — it only parses, stores and compares
  decimal literals; `float(...)` / `int(...)` parsing is `pyFloat?` /
  `pyInt?` over plain decimal literals (scientific notation and special
  float values are not produced by this code base);
* Python dicts are association lists with first-key-wins lookup and
  in-place update (`setKey`), mirroring dict insertion-order semantics.
-/

namespace Bank

/-- A Python float, as an exact decimal: the value `mant / 10 ^ exp`.
Kept in normal form (`exp = 0`, or `mant` not a multiple of 10), so
decimal-value equality coincides with structural equality. -/
structure PyFloat where
  mant : Int
  exp : Nat
deriving DecidableEq

/-- Normalize a decimal by stripping factors of ten into the exponent. -/
def normPyFloat : Int → Nat → PyFloat
  | m, 0 => ⟨m, 0⟩
  | m, e + 1 => if m % 10 = 0 then normPyFloat (m / 10) e else ⟨m, e + 1⟩

/-- A Python-dict value stored in `client_data`: string, float or int field. -/
inductive CVal
  | str (v : String)
  | num (v : PyFloat)
  | int (v : Int)
deriving DecidableEq

/-- The `client_data` mapping is a dict from field name to value (src/state.py line 16). -/
abbrev ClientData := List (String × CVal)

/-- A JSON value appearing in a tool call's arguments dict. -/
inductive JVal
  | num (q : PyFloat)
  | str (v : String)
  | bool (b : Bool)
  | null
deriving DecidableEq

/-- A tool call's structured arguments. -/
abbrev ToolArgs := List (String × JVal)

/-- A tool-call request produced by the model: name, args and call id. -/
structure ToolCall where
  name : String
  args : ToolArgs
  id : String
deriving DecidableEq

/-- A conversation message: human turn, assistant turn (with its possibly
empty list of tool-call requests), or a tool-result message. -/
inductive Msg
  | human (content : String)
  | ai (content : String) (tool_calls : List ToolCall)
  | tool (content : String) (tool_call_id : String) (name : String)
deriving DecidableEq

/-- The shared conversation state of src/state.py (`AgentState`). -/
structure AgentState where
  messages : List Msg
  authenticated : Bool
  client_data : Option ClientData
  auth_attempts : Nat
  current_agent : String
  should_end : Bool
deriving DecidableEq

/-- Embeds `_get_initial_state` (src/graph.py lines 43-51): fresh conversation. -/
def get_initial_state : AgentState :=
  { messages := []
    authenticated := false
    client_data := none
    auth_attempts := 0
    current_agent := "triage"
    should_end := false }

/-- A ToolMessage appended by `tool_node`: content, call id and tool name. -/
structure ToolMsg where
  content : String
  tool_call_id : String
  name : String
deriving DecidableEq

/-- The `state_updates` dict accumulated by `tool_node`: a key is present
(`some`) exactly when some handler wrote it during the batch. -/
structure Updates where
  should_end : Option Bool := none
  authenticated : Option Bool := none
  client_data : Option ClientData := none
  auth_attempts : Option Nat := none
  current_agent : Option String := none
deriving DecidableEq

/-- The dict `tool_node` returns: tool-result messages plus state updates. -/
structure NodeResult where
  msgs : List ToolMsg
  updates : Updates
deriving DecidableEq

/-- Result of one `tool.invoke(args)` call: a returned string or a raised
exception (any `Exception` caught by src/graph.py lines 128-135). -/
inductive Outcome
  | ok (r : String)
  | err
deriving DecidableEq

-- ---------------------------------------------------------------------------
-- Python string primitives used by the handlers
-- ---------------------------------------------------------------------------

/-- Python `str.startswith(p)`, as a character-prefix test. -/
def py_startswith (s p : String) : Bool :=
  p.toList.isPrefixOf s.toList

/-- Python `str.split(sep)` for non-empty `sep`, on character lists, with a
structural fuel argument (the fuel is the list length, which bounds the
number of steps, so the fallthrough fuel-exhaustion branch is unreachable). -/
def pySplitAux (sep : List Char) : Nat → List Char → List (List Char)
  | _, [] => [[]]
  | 0, l => [l]
  | fuel + 1, c :: rest =>
    if !sep.isEmpty && sep.isPrefixOf (c :: rest) then
      [] :: pySplitAux sep fuel ((c :: rest).drop sep.length)
    else
      match pySplitAux sep fuel rest with
      | [] => [[c]]
      | h :: t => (c :: h) :: t

/-- Python `s.split(sep)` for non-empty `sep`. -/
def pySplit (s sep : String) : List String :=
  (pySplitAux sep.toList s.toList.length s.toList).map (fun cs => String.mk cs)

/-- Python `s.strip()`: surrounding whitespace removed. -/
def pyStrip (s : String) : String :=
  String.mk
    (((s.toList.dropWhile Char.isWhitespace).reverse.dropWhile
        Char.isWhitespace).reverse)

/-- Python `s.rstrip(".")`: trailing dots removed. -/
def rstripDots (s : String) : String :=
  String.mk ((s.toList.reverse.dropWhile (fun c => c = '.')).reverse)

/-- Python `sub in s` for non-empty `sub`: `str.split` yields at least two
parts exactly when the separator occurs. -/
def containsSub (s sub : String) : Bool :=
  2 ≤ (pySplit s sub).length

/-- Numeric value of a digit list (most significant first). -/
def digitsVal (cs : List Char) : Nat :=
  cs.foldl (fun a c => a * 10 + (c.toNat - 48)) 0

/-- Unsigned part of Python `float(...)` on a decimal literal:
digits, optionally followed by a dot and further digits, or a dot and
at least one digit; the decimal value is `(intpart.fracpart) = (all the
digits) / 10 ^ (number of fraction digits)`, normalized. -/
def pyFloatCore (cs : List Char) : Option PyFloat :=
  let intPart := cs.takeWhile Char.isDigit
  let rest := cs.dropWhile Char.isDigit
  match rest with
  | [] =>
    if intPart.isEmpty then none else some ⟨(digitsVal intPart : Int), 0⟩
  | c :: fracCs =>
    if c = '.' && fracCs.all Char.isDigit
        && (!intPart.isEmpty || !fracCs.isEmpty) then
      some (normPyFloat (digitsVal (intPart ++ fracCs) : Int) fracCs.length)
    else
      none

/-- Negation of an exact decimal (normal form is preserved). -/
def negPyFloat (x : PyFloat) : PyFloat :=
  ⟨-x.mant, x.exp⟩

/-- Python `float(s)` on the decimal literals this code base produces:
surrounding whitespace stripped, optional sign.  `none` models a raised
`ValueError`. -/
def pyFloat? (s : String) : Option PyFloat :=
  match (pyStrip s).toList with
  | '+' :: cs => pyFloatCore cs
  | '-' :: cs => (pyFloatCore cs).map negPyFloat
  | cs => pyFloatCore cs

/-- Unsigned part of Python `int(...)`: a non-empty digit string. -/
def pyIntCore (cs : List Char) : Option Int :=
  if !cs.isEmpty && cs.all Char.isDigit then some (digitsVal cs : Int)
  else none

/-- Python `int(s)`: surrounding whitespace stripped, optional sign.
`none` models a raised `ValueError`. -/
def pyInt? (s : String) : Option Int :=
  match (pyStrip s).toList with
  | '+' :: cs => pyIntCore cs
  | '-' :: cs => (pyIntCore cs).map Neg.neg
  | cs => pyIntCore cs

-- ---------------------------------------------------------------------------
-- Python dict primitives
-- ---------------------------------------------------------------------------

/-- Dict store `d[k] = v`: overwrite in place if the key exists, else append. -/
def setKey : ClientData → String → CVal → ClientData
  | [], k, v => [(k, v)]
  | p :: rest, k, v => if p.1 = k then (k, v) :: rest else p :: setKey rest k v

/-- Dict read `d.get(k)`. -/
def lookupKey : ClientData → String → Option CVal
  | [], _ => none
  | p :: rest, k => if p.1 = k then some p.2 else lookupKey rest k

/-- Args-dict read `args[k]`; `none` models a `KeyError`. -/
def getArg (args : ToolArgs) (k : String) : Option JVal :=
  (args.find? (fun p => p.1 == k)).map (fun p => p.2)

/-- Python `float(x)` on a JSON argument value: numbers pass through, strings
are parsed, bools are numeric in Python, `None` raises `TypeError`. -/
def pyFloatOfVal : JVal → Option PyFloat
  | JVal.num q => some q
  | JVal.str v => pyFloat? v
  | JVal.bool b => some ⟨if b then 1 else 0, 0⟩
  | JVal.null => none

/-- Python `float(tool_args["new_limit"])` with `KeyError`/`ValueError`/`TypeError`
collapsed into `none` (all three are caught in src/graph.py line 221). -/
def pyFloatArg (args : ToolArgs) (k : String) : Option PyFloat :=
  match getArg args k with
  | some v => pyFloatOfVal v
  | none => none

-- ---------------------------------------------------------------------------
-- Tool registry (src/graph.py lines 17-40, src/agents/*.py)
-- ---------------------------------------------------------------------------

/-- Tool names of TRIAGE_TOOLS (src/agents/triage.py). -/
def TRIAGE_TOOL_NAMES : List String :=
  ["authenticate_client", "end_conversation",
   "transfer_to_credit", "transfer_to_exchange"]

/-- Tool names of CREDIT_TOOLS (src/agents/credit.py). -/
def CREDIT_TOOL_NAMES : List String :=
  ["query_credit_limit", "request_limit_increase", "end_conversation",
   "transfer_to_interview", "transfer_to_triage"]

/-- Modelled from the spec: src/agents/interview.py is imported by
src/graph.py but missing from the sources; per the spec's agent/tool pairing
and the interview tests, the interview agent carries the score-interview
tools plus the shared end-conversation and transfer tools. -/
def INTERVIEW_TOOL_NAMES : List String :=
  ["calculate_credit_score", "update_client_score", "end_conversation",
   "transfer_to_credit", "transfer_to_triage"]

/-- Tool names of EXCHANGE_TOOLS (src/agents/exchange.py). -/
def EXCHANGE_TOOL_NAMES : List String :=
  ["get_exchange_rate", "end_conversation", "transfer_to_triage"]

/-- Keys of TOOL_MAP (src/graph.py lines 25-32): union of all agents' tool
names, deduplicated. -/
def TOOL_MAP_NAMES : List String :=
  (TRIAGE_TOOL_NAMES ++ CREDIT_TOOL_NAMES
    ++ INTERVIEW_TOOL_NAMES ++ EXCHANGE_TOOL_NAMES).eraseDups

/-- Embeds `TOOL_MAP.get(tool_name) is not None` (src/graph.py line 115). -/
def registered (n : String) : Bool :=
  TOOL_MAP_NAMES.contains n

/-- TRANSFER_MAP (src/graph.py lines 35-40) as a dict lookup. -/
def transferLookup (n : String) : Option String :=
  if n = "transfer_to_credit" then some "credit"
  else if n = "transfer_to_exchange" then some "exchange"
  else if n = "transfer_to_interview" then some "interview"
  else if n = "transfer_to_triage" then some "triage"
  else none

-- ---------------------------------------------------------------------------
-- Fixed result strings (src/graph.py, src/tools/common.py)
-- ---------------------------------------------------------------------------

/-- Synthesized result when a tool raises (src/graph.py lines 132-135). -/
def ERRO_SISTEMA_MSG : String :=
  "ERRO_SISTEMA: Ocorreu um erro ao executar esta operação. Tente novamente."

/-- Synthesized result for an unknown tool name (src/graph.py line 121). -/
def unavailableMsg (n : String) : String :=
  "ERRO: Ferramenta '" ++ n ++ "' não disponível."

/-- Fallback assistant text on model-backend failure (src/graph.py 69-74). -/
def FALLBACK_TEXT : String :=
  "Peço desculpas, mas estou com dificuldades técnicas no momento. Por favor, tente novamente em alguns instantes."

-- ---------------------------------------------------------------------------
-- Per-tool state-delta handlers (src/graph.py lines 167-222)
-- ---------------------------------------------------------------------------

/-- The parsing loop of `_handle_auth_result` (src/graph.py lines 174-185):
walks the `", "`-separated parts, filling the client-data dict; `none`
models a raised `IndexError`/`ValueError` caught by the enclosing `try`. -/
def parseFields : List String → ClientData → Option ClientData
  | [], acc => some acc
  | p :: rest, acc =>
    if containsSub p "Nome:" then
      match (pySplit p "Nome:").get? 1 with
      | some t => parseFields rest (setKey acc "nome" (CVal.str (pyStrip t)))
      | none => none
    else if containsSub p "CPF:" then
      match (pySplit p "CPF:").get? 1 with
      | some t => parseFields rest (setKey acc "cpf" (CVal.str (pyStrip t)))
      | none => none
    else if containsSub p "Limite de crédito:" then
      match (pySplit p "R$").get? 1 with
      | some t =>
        match pyFloat? (pyStrip t) with
        | some q => parseFields rest (setKey acc "limite_credito" (CVal.num q))
        | none => none
      | none => none
    else if containsSub p "Score:" then
      match (pySplit p "Score:").get? 1 with
      | some t =>
        match pyInt? (pyStrip t) with
        | some n => parseFields rest (setKey acc "score" (CVal.int n))
        | none => none
      | none => none
    else
      parseFields rest acc

/-- The `try`/`except` around the parsing loop: on any parse error the
client data falls back to the raw dict (src/graph.py lines 187-189). -/
def parseClientData (r : String) : ClientData :=
  match parseFields (pySplit r ", ") [] with
  | some d => d
  | none => [("raw", CVal.str r)]

/-- Embeds `_handle_auth_result` (src/graph.py lines 167-191). -/
def handle_auth_result (r : String) (s : AgentState) (u : Updates) : Updates :=
  if py_startswith r "SUCESSO" then
    { u with authenticated := some true, client_data := some (parseClientData r) }
  else if py_startswith r "FALHA" then
    { u with auth_attempts := some (s.auth_attempts + 1) }
  else
    u

/-- Embeds `int(result_str.split("para ")[1].rstrip("."))` (src/graph.py line 200). -/
def parseNewScore (r : String) : Option Int :=
  match (pySplit r "para ").get? 1 with
  | some t => pyInt? (rstripDots t)
  | none => none

/-- Embeds `_handle_score_update` (src/graph.py lines 194-206).  The guard is
Python truthiness of `state.get("client_data")`: present and non-empty. -/
def handle_score_update (r : String) (s : AgentState) (u : Updates) : Updates :=
  match s.client_data with
  | some d =>
    if py_startswith r "ATUALIZADO" && !d.isEmpty then
      match parseNewScore r with
      | some n => { u with client_data := some (setKey d "score" (CVal.int n)) }
      | none => u
    else
      u
  | none => u

/-- Embeds `_handle_limit_increase` (src/graph.py lines 208-222).  The guard is
Python truthiness of `state.get("client_data")`: present and non-empty. -/
def handle_limit_increase (r : String) (args : ToolArgs) (s : AgentState)
    (u : Updates) : Updates :=
  match s.client_data with
  | some d =>
    if py_startswith r "APROVADO" && !d.isEmpty then
      match pyFloatArg args "new_limit" with
      | some x =>
        { u with client_data := some (setKey d "limite_credito" (CVal.num x)) }
      | none => u
    else
      u
  | none => u

-- ---------------------------------------------------------------------------
-- tool_node (src/graph.py lines 106-164)
-- ---------------------------------------------------------------------------

/-- The result string recorded for a registered call: the tool's returned
string, or the synthesized system-error string when the invocation raised. -/
def effResult : Outcome → String
  | Outcome.ok r => r
  | Outcome.err => ERRO_SISTEMA_MSG

/-- The per-tool state-delta dispatch of `tool_node`
(src/graph.py lines 147-162): keyed on the tool name alone. -/
def applyToolUpdate (c : ToolCall) (r : String) (s : AgentState)
    (u : Updates) : Updates :=
  if c.name = "end_conversation" then
    { u with should_end := some true }
  else if c.name = "authenticate_client" then
    handle_auth_result r s u
  else
    match transferLookup c.name with
    | some target => { u with current_agent := some target }
    | none =>
      if c.name = "update_client_score" then
        handle_score_update r s u
      else if c.name = "request_limit_increase" then
        handle_limit_increase r c.args s u
      else
        u

/-- One iteration of the `for tool_call in last_message.tool_calls` loop:
unknown tools get an unavailable-result message and no state delta
(the `continue` branch), registered tools are invoked through the oracle
and dispatched. -/
def runCall (oracle : Nat → Outcome) (s : AgentState) (i : Nat)
    (c : ToolCall) (u : Updates) : ToolMsg × Updates :=
  if registered c.name then
    let r := effResult (oracle i)
    (⟨r, c.id, c.name⟩, applyToolUpdate c r s u)
  else
    (⟨unavailableMsg c.name, c.id, c.name⟩, u)

/-- The whole loop, threading the accumulated `state_updates` dict.  The
handlers read side-channel fields from `s`, the node's input state, exactly
as the Python handlers read `state` and never the accumulated dict. -/
def runCalls (oracle : Nat → Outcome) (s : AgentState) :
    Nat → List ToolCall → Updates → List ToolMsg × Updates
  | _, [], u => ([], u)
  | i, c :: rest, u =>
    let p := runCall oracle s i c u
    let q := runCalls oracle s (i + 1) rest p.2
    (p.1 :: q.1, q.2)

/-- Tool-call batch of the most recent message (src/graph.py line 108). -/
def pendingCalls (s : AgentState) : List ToolCall :=
  match s.messages.getLast? with
  | some (Msg.ai _ tcs) => tcs
  | _ => []

/-- The `tool_node` loop on an explicit batch. -/
def runBatch (oracle : Nat → Outcome) (s : AgentState)
    (calls : List ToolCall) : NodeResult :=
  let p := runCalls oracle s 0 calls {}
  ⟨p.1, p.2⟩

/-- Embeds `tool_node` (src/graph.py lines 106-164). -/
def tool_node (oracle : Nat → Outcome) (s : AgentState) : NodeResult :=
  runBatch oracle s (pendingCalls s)

/-- LangGraph's merge of a node's returned dict into the state: tool
messages are appended (`add_messages`), each side-channel key present in
the dict overwrites the field. -/
def applyUpdates (s : AgentState) (n : NodeResult) : AgentState :=
  { messages :=
      s.messages ++ n.msgs.map (fun m => Msg.tool m.content m.tool_call_id m.name)
    authenticated := n.updates.authenticated.getD s.authenticated
    client_data :=
      match n.updates.client_data with
      | some d => some d
      | none => s.client_data
    auth_attempts := n.updates.auth_attempts.getD s.auth_attempts
    current_agent := n.updates.current_agent.getD s.current_agent
    should_end := n.updates.should_end.getD s.should_end }

-- ---------------------------------------------------------------------------
-- Orchestration loop (src/graph.py lines 57-77 and 228-282)
-- ---------------------------------------------------------------------------

/-- Result of one model-backend call: a message (content plus tool-call
requests) or a raised error. -/
inductive LLMResult
  | reply (content : String) (tool_calls : List ToolCall)
  | raise
deriving DecidableEq

/-- Embeds `_agent_node` (src/graph.py lines 57-77): ask the backend for the
active agent's next message; on any raised error return the fixed fallback
assistant message instead (the returned dict carries only `messages`, so no
side-channel field changes on either branch). -/
def agentMessage (llm : String → List Msg → LLMResult) (agent : String)
    (msgs : List Msg) : Msg :=
  match llm agent msgs with
  | LLMResult.reply c tcs => Msg.ai c tcs
  | LLMResult.raise => Msg.ai FALLBACK_TEXT []

/-- Embeds `route_entry` (src/graph.py lines 228-230). -/
def route_entry (s : AgentState) : String :=
  s.current_agent

/-- Embeds `route_after_tools` (src/graph.py lines 243-246). -/
def route_after_tools (s : AgentState) : String :=
  s.current_agent

/-- Embeds `should_continue` (src/graph.py lines 233-240): run tools iff the last
message is an assistant message with a non-empty tool-call list. -/
def should_continue (s : AgentState) : Bool :=
  match s.messages.getLast? with
  | some (Msg.ai _ tcs) => !tcs.isEmpty
  | _ => false

/-- The compiled graph's loop (src/graph.py lines 252-279): route to the
agent named by `current_agent`, take its message, then either finish the
turn or execute tools and re-enter the (possibly transferred) agent.
`fuel` bounds the unbounded Python loop: `none` models non-termination.
`tor fuel` is the tool-invocation oracle for that iteration's batch. -/
def advanceLoop (llm : String → List Msg → LLMResult)
    (tor : Nat → Nat → Outcome) : Nat → AgentState → Option AgentState
  | 0, _ => none
  | fuel + 1, s =>
    let m := agentMessage llm (route_entry s) s.messages
    let s1 : AgentState := { s with messages := s.messages ++ [m] }
    if should_continue s1 then
      advanceLoop llm tor fuel (applyUpdates s1 (tool_node (tor fuel) s1))
    else
      some s1

/-- The single caller-facing operation `advance(state) -> state`. -/
def advance (llm : String → List Msg → LLMResult)
    (tor : Nat → Nat → Outcome) (fuel : Nat) (s : AgentState) :
    Option AgentState :=
  advanceLoop llm tor fuel s

-- ---------------------------------------------------------------------------
-- Shared helper lemmas
-- ---------------------------------------------------------------------------

/-- A result string cannot carry both the success and the failure marker. -/
theorem sucesso_not_falha (r : String) (h : py_startswith r "SUCESSO" = true) :
    py_startswith r "FALHA" = false := by
  cases hf : py_startswith r "FALHA" with
  | false => rfl
  | true =>
    exfalso
    unfold py_startswith at h hf
    have e1 : "SUCESSO".toList = 'S' :: "UCESSO".toList := by decide
    have e2 : "FALHA".toList = 'F' :: "ALHA".toList := by decide
    rw [e1] at h
    rw [e2] at hf
    cases hl : r.toList with
    | nil => rw [hl] at h; simp [List.isPrefixOf] at h
    | cons a as =>
      rw [hl] at h hf
      simp [List.isPrefixOf] at h hf
      rw [← h.1] at hf
      exact absurd hf.1 (by decide)

/-- The message recorded for a call carries its call id and tool name,
on both the registered and the unknown-tool branch. -/
theorem runCall_msg (oracle : Nat → Outcome) (s : AgentState) (i : Nat)
    (c : ToolCall) (u : Updates) :
    (runCall oracle s i c u).1.tool_call_id = c.id ∧
    (runCall oracle s i c u).1.name = c.name := by
  unfold runCall
  split <;> exact ⟨rfl, rfl⟩

/-- Identifiers and names of the recorded messages, batch-wide: they are
exactly those of the requests, in order. -/
theorem runCalls_sig (oracle : Nat → Outcome) (s : AgentState) :
    ∀ (calls : List ToolCall) (i : Nat) (u : Updates),
    ((runCalls oracle s i calls u).1.map
        (fun m => (m.tool_call_id, m.name)))
      = calls.map (fun c => (c.id, c.name)) := by
  intro calls
  induction calls with
  | nil => intro i u; rfl
  | cons c rest ih =>
    intro i u
    have hm := runCall_msg oracle s i c u
    simp only [runCalls, List.map_cons, hm.1, hm.2, ih]

/-- Updating: `setKey` stores the given value at the given key. -/
theorem lookupKey_setKey_self (d : ClientData) (k : String) (v : CVal) :
    lookupKey (setKey d k v) k = some v := by
  induction d with
  | nil => simp [setKey, lookupKey]
  | cons p rest ih =>
    by_cases h : p.1 = k
    · simp [setKey, h, lookupKey]
    · simp [setKey, h, lookupKey, ih]

/-- Framing: `setKey` leaves every other key untouched. -/
theorem lookupKey_setKey_other (d : ClientData) (k : String) (v : CVal)
    (q : String) (hq : q ≠ k) :
    lookupKey (setKey d k v) q = lookupKey d q := by
  induction d with
  | nil => simp [setKey, lookupKey, Ne.symm hq]
  | cons p rest ih =>
    by_cases h : p.1 = k
    · have hpq : p.1 ≠ q := by rw [h]; exact Ne.symm hq
      simp [setKey, h, lookupKey, Ne.symm hq, hpq]
    · by_cases h2 : p.1 = q
      · simp [setKey, h, lookupKey, h2, hq]
      · simp [setKey, h, lookupKey, h2, ih]

-- ---------------------------------------------------------------------------
-- C1: one tool-result message per tool-call request, ids and order kept
-- ---------------------------------------------------------------------------

/-- C1: for every tool-call batch processed by `tool_node` — whatever each
invocation does (succeed, raise, or name an unknown tool) — the number of
tool-result messages equals the number of requests of the triggering
message, and the i-th result carries the call id and tool name of the i-th
request. -/
theorem c1_one_result_per_request (oracle : Nat → Outcome) (s : AgentState) :
    (tool_node oracle s).msgs.length = (pendingCalls s).length ∧
    ((tool_node oracle s).msgs.map (fun m => (m.tool_call_id, m.name)))
      = (pendingCalls s).map (fun c => (c.id, c.name)) := by
  have h := runCalls_sig oracle s (pendingCalls s) 0 {}
  constructor
  · have := congrArg List.length h
    simpa [tool_node, runBatch] using this
  · simpa [tool_node, runBatch] using h

-- ---------------------------------------------------------------------------
-- C2: transfer tools set current_agent from the fixed table
-- ---------------------------------------------------------------------------

/-- C2: processing any tool-call request whose name is a transfer tool sets
the `current_agent` delta to exactly the agent named by TRANSFER_MAP,
whatever the invocation outcome was and whatever was accumulated before. -/
theorem c2_transfer_sets_current_agent (oracle : Nat → Outcome)
    (s : AgentState) (i : Nat) (c : ToolCall) (u : Updates)
    (target : String) (h : transferLookup c.name = some target) :
    (runCall oracle s i c u).2.current_agent = some target := by
  obtain ⟨nm, cargs, cid⟩ := c
  simp only at h ⊢
  unfold transferLookup at h
  split at h
  case isTrue hn =>
    cases h
    subst hn
    have hreg : registered "transfer_to_credit" = true := by decide
    simp [runCall, hreg, applyToolUpdate, transferLookup]
  case isFalse hn1 =>
    split at h
    case isTrue hn =>
      cases h
      subst hn
      have hreg : registered "transfer_to_exchange" = true := by decide
      simp [runCall, hreg, applyToolUpdate, transferLookup]
    case isFalse hn2 =>
      split at h
      case isTrue hn =>
        cases h
        subst hn
        have hreg : registered "transfer_to_interview" = true := by decide
        simp [runCall, hreg, applyToolUpdate, transferLookup]
      case isFalse hn3 =>
        split at h
        case isTrue hn =>
          cases h
          subst hn
          have hreg : registered "transfer_to_triage" = true := by decide
          simp [runCall, hreg, applyToolUpdate, transferLookup]
        case isFalse hn4 => cases h

/-- Witness for C2 at `transfer_to_exchange` with a raising invocation:
the delta targets the exchange agent even though the recorded result is
the system-error text, not a transfer confirmation. -/
theorem c2_witness :
    (runCall (fun _ => Outcome.err) get_initial_state 0
        ⟨"transfer_to_exchange", [], "call_1"⟩ {}).2.current_agent
      = some "exchange" :=
  c2_transfer_sets_current_agent (fun _ => Outcome.err) get_initial_state 0
    ⟨"transfer_to_exchange", [], "call_1"⟩ {} "exchange" (by decide)

-- ---------------------------------------------------------------------------
-- C10: should_end is keyed on the tool name alone
-- ---------------------------------------------------------------------------

/-- C10: a request naming `end_conversation` always sets the `should_end`
delta to true — also when the invocation raised, in which case the recorded
tool-result is the synthesized system-error string rather than the normal
confirmation text. -/
theorem c10_end_conversation_keyed_on_name (oracle : Nat → Outcome)
    (s : AgentState) (i : Nat) (c : ToolCall) (u : Updates)
    (h : c.name = "end_conversation") :
    (runCall oracle s i c u).2.should_end = some true ∧
    (oracle i = Outcome.err →
      (runCall oracle s i c u).1.content = ERRO_SISTEMA_MSG) := by
  obtain ⟨nm, cargs, cid⟩ := c
  simp only at h
  subst h
  have hreg : registered "end_conversation" = true := by decide
  constructor
  · simp [runCall, hreg, applyToolUpdate]
  · intro he
    simp [runCall, hreg, he, effResult]

/-- Witness for C10: a raising `end_conversation` call still flips the
`should_end` delta, and its recorded result is the system-error string. -/
theorem c10_witness :
    (runCall (fun _ => Outcome.err) get_initial_state 0
        ⟨"end_conversation", [], "call_1"⟩ {}).2.should_end = some true ∧
    (runCall (fun _ => Outcome.err) get_initial_state 0
        ⟨"end_conversation", [], "call_1"⟩ {}).1.content = ERRO_SISTEMA_MSG := by
  have h := c10_end_conversation_keyed_on_name (fun _ => Outcome.err)
    get_initial_state 0 ⟨"end_conversation", [], "call_1"⟩ {} rfl
  exact ⟨h.1, h.2 rfl⟩

-- ---------------------------------------------------------------------------
-- C4: authenticate result handling
-- ---------------------------------------------------------------------------

/-- C4: the authenticate handler, by result class: a SUCCESS-prefixed result
sets `authenticated` and sets `client_data` to the parsed mapping (with the
raw fallback folded into `parseClientData`), touching nothing else; a
FAILURE-prefixed result only increments `auth_attempts` by 1; any other
result (e.g. the system-error string) changes nothing. -/
theorem c4_auth_result_cases (r : String) (s : AgentState) (u : Updates) :
    (py_startswith r "SUCESSO" = true →
      handle_auth_result r s u
        = { u with authenticated := some true,
                   client_data := some (parseClientData r) }) ∧
    (py_startswith r "FALHA" = true →
      handle_auth_result r s u
        = { u with auth_attempts := some (s.auth_attempts + 1) }) ∧
    (py_startswith r "SUCESSO" = false → py_startswith r "FALHA" = false →
      handle_auth_result r s u = u) := by
  refine ⟨?_, ?_, ?_⟩
  · intro h
    simp [handle_auth_result, h]
  · intro h
    cases hs : py_startswith r "SUCESSO" with
    | false => simp [handle_auth_result, hs, h]
    | true =>
      exfalso
      rw [sucesso_not_falha r hs] at h
      exact absurd h (by decide)
  · intro h1 h2
    simp [handle_auth_result, h1, h2]

/-- Witness for C4: the three branches at the source's actual result
strings, with the success string parsed into the four typed fields and a
corrupted success string falling back to the raw mapping. -/
theorem c4_witness :
    (handle_auth_result
        "SUCESSO: Cliente autenticado. Nome: João Silva, CPF: 12345678901, Limite de crédito: R$ 5000.00, Score: 650"
        get_initial_state {}
      = { authenticated := some true,
          client_data := some
            [("nome", CVal.str "João Silva"), ("cpf", CVal.str "12345678901"),
             ("limite_credito", CVal.num ⟨5000, 0⟩), ("score", CVal.int 650)] }) ∧
    (handle_auth_result
        "SUCESSO: Cliente autenticado. Nome: Teste, CPF: 12345678901, Limite de crédito: R$ abc, Score: xyz"
        get_initial_state {}
      = { authenticated := some true,
          client_data := some
            [("raw", CVal.str "SUCESSO: Cliente autenticado. Nome: Teste, CPF: 12345678901, Limite de crédito: R$ abc, Score: xyz")] }) ∧
    (handle_auth_result
        "FALHA: CPF inválido. O CPF deve conter exatamente 11 dígitos numéricos."
        get_initial_state {}
      = { auth_attempts := some 1 }) ∧
    (handle_auth_result ERRO_SISTEMA_MSG get_initial_state {} = {}) := by
  refine ⟨?_, ?_, ?_, ?_⟩
  · exact ((c4_auth_result_cases
      "SUCESSO: Cliente autenticado. Nome: João Silva, CPF: 12345678901, Limite de crédito: R$ 5000.00, Score: 650"
      get_initial_state {}).1 (by decide)).trans (by decide)
  · exact ((c4_auth_result_cases
      "SUCESSO: Cliente autenticado. Nome: Teste, CPF: 12345678901, Limite de crédito: R$ abc, Score: xyz"
      get_initial_state {}).1 (by decide)).trans (by decide)
  · exact ((c4_auth_result_cases
      "FALHA: CPF inválido. O CPF deve conter exatamente 11 dígitos numéricos."
      get_initial_state {}).2.1 (by decide)).trans (by decide)
  · exact (c4_auth_result_cases ERRO_SISTEMA_MSG get_initial_state {}).2.2
      (by decide) (by decide)

-- ---------------------------------------------------------------------------
-- C6: limit-increase handling of client_data
-- ---------------------------------------------------------------------------

/-- Fixture for the C6 counterexample: an authenticated state whose
`client_data` is present but an empty mapping. -/
def emptyDataCreditState : AgentState :=
  { messages := []
    authenticated := true
    client_data := some []
    auth_attempts := 0
    current_agent := "credit"
    should_end := false }

/-- Counterexample to C6 as stated: an APPROVED result with a well-formed
`new_limit` argument and a *present* `client_data` (the empty mapping) —
the handler makes no update at all, because the code gates on Python
truthiness of `client_data`, not on mere presence. -/
theorem c6_counterexample :
    py_startswith
        "APROVADO: Solicitação de aumento de limite aprovada! Limite anterior: R$ 5000.00. Novo limite: R$ 7000.00. Score atual: 650."
        "APROVADO" = true ∧
    emptyDataCreditState.client_data ≠ none ∧
    pyFloatArg [("new_limit", JVal.num ⟨7000, 0⟩)] "new_limit" = some ⟨7000, 0⟩ ∧
    handle_limit_increase
        "APROVADO: Solicitação de aumento de limite aprovada! Limite anterior: R$ 5000.00. Novo limite: R$ 7000.00. Score atual: 650."
        [("new_limit", JVal.num ⟨7000, 0⟩)] emptyDataCreditState {}
      = {} := by
  refine ⟨by decide, by decide, by decide, by decide⟩

/-- C6 (amended): non-APPROVED results never touch `client_data`; with
`client_data` absent, or with a missing/malformed `new_limit` argument,
nothing changes; with an APPROVED result, a present **non-empty**
`client_data` and a parseable argument, exactly the credit-limit field is
overwritten with the originally requested numeric argument (not reparsed
from the result text) and every other field is preserved. -/
theorem c6_limit_increase_amended (r : String) (args : ToolArgs)
    (s : AgentState) (u : Updates) :
    (py_startswith r "APROVADO" = false →
      handle_limit_increase r args s u = u) ∧
    (s.client_data = none → handle_limit_increase r args s u = u) ∧
    (pyFloatArg args "new_limit" = none →
      handle_limit_increase r args s u = u) ∧
    (∀ d x, s.client_data = some d → d ≠ [] →
      py_startswith r "APROVADO" = true →
      pyFloatArg args "new_limit" = some x →
      handle_limit_increase r args s u
        = { u with client_data := some (setKey d "limite_credito" (CVal.num x)) } ∧
      lookupKey (setKey d "limite_credito" (CVal.num x)) "limite_credito"
        = some (CVal.num x) ∧
      (∀ k, k ≠ "limite_credito" →
        lookupKey (setKey d "limite_credito" (CVal.num x)) k = lookupKey d k)) := by
  refine ⟨?_, ?_, ?_, ?_⟩
  · intro h
    unfold handle_limit_increase
    cases s.client_data with
    | none => rfl
    | some d => simp [h]
  · intro h
    simp [handle_limit_increase, h]
  · intro h
    unfold handle_limit_increase
    cases s.client_data with
    | none => rfl
    | some d =>
      by_cases hc : (py_startswith r "APROVADO" && !d.isEmpty) = true
      · simp [hc, h]
      · simp [hc]
  · intro d x hd hne hap hx
    have hemp : d.isEmpty = false := by simp [List.isEmpty_iff, hne]
    refine ⟨?_, lookupKey_setKey_self d "limite_credito" (CVal.num x),
      fun k hk => lookupKey_setKey_other d "limite_credito" (CVal.num x) k hk⟩
    simp [handle_limit_increase, hd, hap, hemp, hx]

/-- Witness for C6 (amended), at the spec's Scenario B: credit limit 5000,
result "APROVADO ...", requested `new_limit` 7000 — the credit-limit field
becomes 7000 and the name field survives. -/
theorem c6_witness :
    handle_limit_increase "APROVADO: Solicitação de aumento de limite aprovada!"
        [("new_limit", JVal.num ⟨7000, 0⟩)]
        { messages := [], authenticated := true,
          client_data := some
            [("nome", CVal.str "João Silva"), ("limite_credito", CVal.num ⟨5000, 0⟩)],
          auth_attempts := 0, current_agent := "credit", should_end := false }
        {}
      = { client_data := some
            [("nome", CVal.str "João Silva"), ("limite_credito", CVal.num ⟨7000, 0⟩)] } ∧
    lookupKey
        (setKey [("nome", CVal.str "João Silva"), ("limite_credito", CVal.num ⟨5000, 0⟩)]
          "limite_credito" (CVal.num ⟨7000, 0⟩)) "nome"
      = some (CVal.str "João Silva") := by
  have h := (c6_limit_increase_amended
      "APROVADO: Solicitação de aumento de limite aprovada!"
      [("new_limit", JVal.num ⟨7000, 0⟩)]
      { messages := [], authenticated := true,
        client_data := some
          [("nome", CVal.str "João Silva"), ("limite_credito", CVal.num ⟨5000, 0⟩)],
        auth_attempts := 0, current_agent := "credit", should_end := false }
      {}).2.2.2
    [("nome", CVal.str "João Silva"), ("limite_credito", CVal.num ⟨5000, 0⟩)]
    ⟨7000, 0⟩ rfl (by decide) (by decide) (by decide)
  exact ⟨h.1.trans (by decide), (h.2.2 "nome" (by decide)).trans (by decide)⟩

-- ---------------------------------------------------------------------------
-- C7: score-update handling of client_data
-- ---------------------------------------------------------------------------

/-- Fixture for the C7 counterexample: a state whose `client_data` is
present but an empty mapping. -/
def emptyDataInterviewState : AgentState :=
  { messages := []
    authenticated := true
    client_data := some []
    auth_attempts := 0
    current_agent := "interview"
    should_end := false }

/-- Counterexample to C7 as stated: an UPDATED result with a parseable
score and a *present* `client_data` (the empty mapping) — the handler makes
no state change, because the code gates on Python truthiness of
`client_data`, not on mere presence. -/
theorem c7_counterexample :
    py_startswith "ATUALIZADO: Score do cliente atualizado de 650 para 800."
        "ATUALIZADO" = true ∧
    emptyDataInterviewState.client_data ≠ none ∧
    parseNewScore "ATUALIZADO: Score do cliente atualizado de 650 para 800."
      = some 800 ∧
    handle_score_update "ATUALIZADO: Score do cliente atualizado de 650 para 800."
        emptyDataInterviewState {}
      = {} := by
  refine ⟨by decide, by decide, by decide, by decide⟩

/-- C7 (amended): non-UPDATED results never touch `client_data`; with
`client_data` absent, or when parsing the new score out of the result text
fails, nothing changes; with an UPDATED result, a present **non-empty**
`client_data` and a parseable score, exactly the score field of a copy of
`client_data` is overwritten and every other field is preserved. -/
theorem c7_score_update_amended (r : String) (s : AgentState) (u : Updates) :
    (py_startswith r "ATUALIZADO" = false →
      handle_score_update r s u = u) ∧
    (s.client_data = none → handle_score_update r s u = u) ∧
    (parseNewScore r = none → handle_score_update r s u = u) ∧
    (∀ d n, s.client_data = some d → d ≠ [] →
      py_startswith r "ATUALIZADO" = true →
      parseNewScore r = some n →
      handle_score_update r s u
        = { u with client_data := some (setKey d "score" (CVal.int n)) } ∧
      lookupKey (setKey d "score" (CVal.int n)) "score" = some (CVal.int n) ∧
      (∀ k, k ≠ "score" →
        lookupKey (setKey d "score" (CVal.int n)) k = lookupKey d k)) := by
  refine ⟨?_, ?_, ?_, ?_⟩
  · intro h
    unfold handle_score_update
    cases s.client_data with
    | none => rfl
    | some d => simp [h]
  · intro h
    simp [handle_score_update, h]
  · intro h
    unfold handle_score_update
    cases s.client_data with
    | none => rfl
    | some d =>
      by_cases hc : (py_startswith r "ATUALIZADO" && !d.isEmpty) = true
      · simp [hc, h]
      · simp [hc]
  · intro d n hd hne hup hn
    have hemp : d.isEmpty = false := by simp [List.isEmpty_iff, hne]
    refine ⟨?_, lookupKey_setKey_self d "score" (CVal.int n),
      fun k hk => lookupKey_setKey_other d "score" (CVal.int n) k hk⟩
    simp [handle_score_update, hd, hup, hemp, hn]

/-- Witness for C7 (amended): the repo's own test vector — score 650
updated to 800 by the UPDATED result text, name field preserved. -/
theorem c7_witness :
    handle_score_update "ATUALIZADO: Score do cliente atualizado de 650 para 800."
        { messages := [], authenticated := true,
          client_data := some
            [("nome", CVal.str "João"), ("score", CVal.int 650)],
          auth_attempts := 0, current_agent := "interview", should_end := false }
        {}
      = { client_data := some
            [("nome", CVal.str "João"), ("score", CVal.int 800)] } ∧
    lookupKey (setKey [("nome", CVal.str "João"), ("score", CVal.int 650)]
        "score" (CVal.int 800)) "nome"
      = some (CVal.str "João") := by
  have h := (c7_score_update_amended
      "ATUALIZADO: Score do cliente atualizado de 650 para 800."
      { messages := [], authenticated := true,
        client_data := some [("nome", CVal.str "João"), ("score", CVal.int 650)],
        auth_attempts := 0, current_agent := "interview", should_end := false }
      {}).2.2.2
    [("nome", CVal.str "João"), ("score", CVal.int 650)]
    800 rfl (by decide) (by decide) (by decide)
  exact ⟨h.1.trans (by decide), (h.2.2 "nome" (by decide)).trans (by decide)⟩

-- ---------------------------------------------------------------------------
-- C5: auth_attempts accounting
-- ---------------------------------------------------------------------------

/-- The i-th call of a batch is a failed authentication: a registered
`authenticate_client` request whose effective result is FAILURE-prefixed. -/
def callAuthFailed (oracle : Nat → Outcome) (i : Nat) (c : ToolCall) : Bool :=
  registered c.name && c.name == "authenticate_client"
    && py_startswith (effResult (oracle i)) "FALHA"

/-- Some call of the batch (indices starting at `i`) is a failed
authentication. -/
def anyAuthFailure (oracle : Nat → Outcome) : Nat → List ToolCall → Bool
  | _, [] => false
  | i, c :: rest => callAuthFailed oracle i c || anyAuthFailure oracle (i + 1) rest

/-- The score handler never touches the `auth_attempts` delta. -/
theorem handle_score_update_auth_attempts (r : String) (s : AgentState)
    (u : Updates) :
    (handle_score_update r s u).auth_attempts = u.auth_attempts := by
  unfold handle_score_update
  split
  · split
    · split <;> rfl
    · rfl
  · rfl

/-- The limit handler never touches the `auth_attempts` delta. -/
theorem handle_limit_increase_auth_attempts (r : String) (args : ToolArgs)
    (s : AgentState) (u : Updates) :
    (handle_limit_increase r args s u).auth_attempts = u.auth_attempts := by
  unfold handle_limit_increase
  split
  · split
    · split <;> rfl
    · rfl
  · rfl

/-- The per-tool dispatch writes the `auth_attempts` delta — always to the
input state's counter plus one — exactly on a FAILURE-prefixed
authenticate result, and otherwise passes the accumulated delta through. -/
theorem applyToolUpdate_auth_attempts (c : ToolCall) (r : String)
    (s : AgentState) (u : Updates) :
    (applyToolUpdate c r s u).auth_attempts
      = (if c.name == "authenticate_client" && py_startswith r "FALHA"
         then some (s.auth_attempts + 1) else u.auth_attempts) := by
  unfold applyToolUpdate
  by_cases h1 : c.name = "end_conversation"
  · have hb : (c.name == "authenticate_client") = false := by
      rw [h1]; decide
    simp [h1, hb]
  · by_cases h2 : c.name = "authenticate_client"
    · have hb : (c.name == "authenticate_client") = true := by
        rw [h2]; decide
      simp only [h1, if_false, h2, if_true, hb, Bool.true_and]
      unfold handle_auth_result
      cases hS : py_startswith r "SUCESSO" with
      | true =>
        rw [sucesso_not_falha r hS]
        simp
      | false =>
        cases hF : py_startswith r "FALHA" with
        | true => simp [hF]
        | false => simp [hF]
    · have hb : (c.name == "authenticate_client") = false :=
        beq_eq_false_iff_ne.mpr h2
      simp only [h1, if_false, h2, hb, Bool.false_and, if_false]
      cases ht : transferLookup c.name with
      | some target => simp
      | none =>
        by_cases h3 : c.name = "update_client_score"
        · simp [h3, handle_score_update_auth_attempts]
        · by_cases h4 : c.name = "request_limit_increase"
          · simp [h3, h4, handle_limit_increase_auth_attempts]
          · simp [h3, h4]

/-- One loop iteration and the `auth_attempts` delta. -/
theorem runCall_auth_attempts (oracle : Nat → Outcome) (s : AgentState)
    (i : Nat) (c : ToolCall) (u : Updates) :
    (runCall oracle s i c u).2.auth_attempts
      = (if callAuthFailed oracle i c
         then some (s.auth_attempts + 1) else u.auth_attempts) := by
  unfold runCall callAuthFailed
  by_cases hr : registered c.name
  · simp only [hr, if_true, Bool.true_and]
    rw [applyToolUpdate_auth_attempts]
  · simp [hr]

/-- Whole-batch `auth_attempts` delta: present exactly when some call is a
failed authentication, and then always equal to the input state's counter
plus one (not accumulated across calls — each write recomputes from the
same input state, so several failures in one batch collapse). -/
theorem runCalls_auth_attempts (oracle : Nat → Outcome) (s : AgentState) :
    ∀ (calls : List ToolCall) (i : Nat) (u : Updates),
    (runCalls oracle s i calls u).2.auth_attempts
      = (if anyAuthFailure oracle i calls
         then some (s.auth_attempts + 1) else u.auth_attempts) := by
  intro calls
  induction calls with
  | nil => intro i u; simp [runCalls, anyAuthFailure]
  | cons c rest ih =>
    intro i u
    simp only [runCalls, anyAuthFailure]
    rw [ih, runCall_auth_attempts]
    by_cases hc : callAuthFailed oracle i c = true <;>
      by_cases ha : anyAuthFailure oracle (i + 1) rest = true <;>
        simp [hc, ha]

/-- The merged state after a tool batch: `auth_attempts` goes up by exactly
one when the batch contains at least one failed authentication and is
unchanged otherwise. -/
theorem toolBatch_auth_attempts (oracle : Nat → Outcome) (s : AgentState)
    (calls : List ToolCall) :
    (applyUpdates s (runBatch oracle s calls)).auth_attempts
      = (if anyAuthFailure oracle 0 calls
         then s.auth_attempts + 1 else s.auth_attempts) := by
  have h := runCalls_auth_attempts oracle s calls 0 {}
  simp only [applyUpdates, runBatch]
  rw [h]
  cases hb : anyAuthFailure oracle 0 calls <;> simp

/-- A single tool step never decreases `auth_attempts`. -/
theorem tool_step_auth_le (oracle : Nat → Outcome) (s : AgentState) :
    s.auth_attempts ≤ (applyUpdates s (tool_node oracle s)).auth_attempts := by
  rw [show tool_node oracle s = runBatch oracle s (pendingCalls s) from rfl,
    toolBatch_auth_attempts]
  split <;> omega

/-- Across a whole `advance` turn, `auth_attempts` never decreases: agent
turns only append messages and tool batches only keep or bump the counter. -/
theorem advance_auth_mono :
    ∀ (fuel : Nat) (llm : String → List Msg → LLMResult)
      (tor : Nat → Nat → Outcome) (s s2 : AgentState),
    advanceLoop llm tor fuel s = some s2 →
    s.auth_attempts ≤ s2.auth_attempts := by
  intro fuel
  induction fuel with
  | zero =>
    intro llm tor s s2 h
    simp [advanceLoop] at h
  | succ n ih =>
    intro llm tor s s2 h
    simp only [advanceLoop] at h
    split at h
    · have h1 := tool_step_auth_le (tor n)
        { s with messages :=
            s.messages ++ [agentMessage llm (route_entry s) s.messages] }
      have h2 := ih llm tor _ s2 h
      exact le_trans h1 h2
    · cases h
      exact le_refl _

/-- C5 (amended): `auth_attempts` never decreases — neither across a tool
batch nor across a whole `advance` turn; a batch bumps it by exactly 1 when
it contains at least one FAILURE-prefixed authenticate result (several such
results within one batch still bump it by exactly 1, because every write
recomputes from the node's input state and the last write wins), and it is
untouched by successes, system errors and all other tools. -/
theorem c5_auth_attempts_amended (oracle : Nat → Outcome) (s : AgentState)
    (calls : List ToolCall) :
    ((applyUpdates s (runBatch oracle s calls)).auth_attempts
      = (if anyAuthFailure oracle 0 calls
         then s.auth_attempts + 1 else s.auth_attempts)) ∧
    s.auth_attempts ≤ (applyUpdates s (runBatch oracle s calls)).auth_attempts ∧
    (∀ llm tor fuel s2, advance llm tor fuel s = some s2 →
      s.auth_attempts ≤ s2.auth_attempts) := by
  refine ⟨toolBatch_auth_attempts oracle s calls, ?_, ?_⟩
  · rw [toolBatch_auth_attempts]
    split <;> omega
  · intro llm tor fuel s2 h
    exact advance_auth_mono fuel llm tor s s2 h

/-- Witness for C5 (amended): one FAILURE-prefixed authenticate result in a
batch bumps the counter from 0 to 1 and does not decrease it. -/
theorem c5_witness :
    (applyUpdates get_initial_state
        (runBatch (fun _ => Outcome.ok "FALHA: CPF inválido.")
          get_initial_state
          [⟨"authenticate_client", [], "call_1"⟩])).auth_attempts = 1 ∧
    get_initial_state.auth_attempts ≤
      (applyUpdates get_initial_state
        (runBatch (fun _ => Outcome.ok "FALHA: CPF inválido.")
          get_initial_state
          [⟨"authenticate_client", [], "call_1"⟩])).auth_attempts := by
  have h := c5_auth_attempts_amended (fun _ => Outcome.ok "FALHA: CPF inválido.")
    get_initial_state [⟨"authenticate_client", [], "call_1"⟩]
  exact ⟨h.1.trans (by decide), h.2.1⟩

/-- Counterexample to C5 as stated: a batch of two authenticate calls, both
with FAILURE-prefixed results, raises `auth_attempts` from 0 to 1 — not to
2 as "+1 for each failed attempt, including several within one batch"
requires — because both writes compute `state.auth_attempts + 1` from the
same input state and the later delta overwrites the earlier one. -/
theorem c5_counterexample :
    get_initial_state.auth_attempts = 0 ∧
    (applyUpdates get_initial_state
        (runBatch
          (fun _ => Outcome.ok
            "FALHA: CPF ou data de nascimento não correspondem a nenhum cliente cadastrado.")
          get_initial_state
          [⟨"authenticate_client",
              [("cpf", JVal.str "00000000000"),
               ("birth_date", JVal.str "01/01/2000")], "call_1"⟩,
           ⟨"authenticate_client",
              [("cpf", JVal.str "00000000000"),
               ("birth_date", JVal.str "01/01/2000")], "call_2"⟩])).auth_attempts
      = 1 := by
  exact ⟨rfl, by decide⟩

-- ---------------------------------------------------------------------------
-- C3: the turn always ends on a tool-call-free assistant message
-- ---------------------------------------------------------------------------

/-- C3 (amended): whenever `advance` returns (the loop has no iteration
cap, so with enough consecutive tool-call replies it does not), the
returned state's last message is an assistant message carrying no pending
tool-call requests.  (The claim's additional "non-empty content" is
refuted by `c3_counterexample`: the engine never checks content.) -/
theorem c3_last_message_amended (llm : String → List Msg → LLMResult)
    (tor : Nat → Nat → Outcome) :
    ∀ (fuel : Nat) (s s2 : AgentState), advance llm tor fuel s = some s2 →
    ∃ content, s2.messages.getLast? = some (Msg.ai content []) := by
  intro fuel
  induction fuel with
  | zero =>
    intro s s2 h
    simp [advance, advanceLoop] at h
  | succ n ih =>
    intro s s2 h
    simp only [advance, advanceLoop] at h
    cases hr : llm (route_entry s) s.messages with
    | reply c tcs =>
      have hmsg : agentMessage llm (route_entry s) s.messages = Msg.ai c tcs := by
        simp [agentMessage, hr]
      rw [hmsg] at h
      cases tcs with
      | nil =>
        have hsc : should_continue
            { s with messages := s.messages ++ [Msg.ai c []] } = false := by
          simp [should_continue, List.getLast?_concat]
        rw [hsc] at h
        simp at h
        cases h
        exact ⟨c, by simp [List.getLast?_concat]⟩
      | cons t ts =>
        have hsc : should_continue
            { s with messages := s.messages ++ [Msg.ai c (t :: ts)] } = true := by
          simp [should_continue, List.getLast?_concat]
        rw [hsc] at h
        simp at h
        exact ih _ s2 h
    | raise =>
      have hmsg : agentMessage llm (route_entry s) s.messages
          = Msg.ai FALLBACK_TEXT [] := by
        simp [agentMessage, hr]
      rw [hmsg] at h
      have hsc : should_continue
          { s with messages := s.messages ++ [Msg.ai FALLBACK_TEXT []] }
            = false := by
        simp [should_continue, List.getLast?_concat]
      rw [hsc] at h
      simp at h
      cases h
      exact ⟨FALLBACK_TEXT, by simp [List.getLast?_concat]⟩

/-- Witness for C3 (amended): a plain-text reply ends the turn after one
iteration and is the last message. -/
theorem c3_witness :
    ∃ content,
      ({ get_initial_state with
          messages := [Msg.ai "Olá! Como posso ajudar?" []] } :
        AgentState).messages.getLast? = some (Msg.ai content []) :=
  c3_last_message_amended
    (fun _ _ => LLMResult.reply "Olá! Como posso ajudar?" [])
    (fun _ _ => Outcome.err) 1 get_initial_state
    { get_initial_state with messages := [Msg.ai "Olá! Como posso ajudar?" []] }
    (by decide)

/-- Counterexample to C3 as stated: a backend reply with empty text and no
tool calls ends the turn, so `advance` returns a state whose last message
is an assistant message with *empty* content — the engine never enforces
non-emptiness. -/
theorem c3_counterexample :
    advance (fun _ _ => LLMResult.reply "" []) (fun _ _ => Outcome.err) 1
        get_initial_state
      = some { get_initial_state with messages := [Msg.ai "" []] } ∧
    ({ get_initial_state with messages := [Msg.ai "" []] } :
        AgentState).messages.getLast? = some (Msg.ai "" []) := by
  exact ⟨by decide, by decide⟩

-- ---------------------------------------------------------------------------
-- C8: model-backend failure is absorbed into a fixed fallback turn
-- ---------------------------------------------------------------------------

/-- C8: when the backend raises on every call, `advance` returns after a
single agent turn whose only effect is appending the fixed
technical-difficulties fallback message: no tool runs, no tool-result
message appears, and every side-channel field — `should_end` included — is
left exactly as it was. -/
theorem c8_backend_failure_fallback (llm : String → List Msg → LLMResult)
    (hllm : ∀ a ms, llm a ms = LLMResult.raise)
    (tor : Nat → Nat → Outcome) (fuel : Nat) (s : AgentState) :
    advance llm tor (fuel + 1) s
      = some { s with messages := s.messages ++ [Msg.ai FALLBACK_TEXT []] } := by
  have hmsg : agentMessage llm (route_entry s) s.messages
      = Msg.ai FALLBACK_TEXT [] := by
    simp [agentMessage, hllm]
  have hsc : should_continue
      { s with messages := s.messages ++ [Msg.ai FALLBACK_TEXT []] } = false := by
    simp [should_continue, List.getLast?_concat]
  simp only [advance, advanceLoop, hmsg]
  rw [hsc]
  simp

/-- Witness for C8: with an always-raising backend, one turn appends
exactly the fallback text to the history and changes nothing else. -/
theorem c8_witness :
    advance (fun _ _ => LLMResult.raise) (fun _ _ => Outcome.err) 1
        { get_initial_state with messages := [Msg.human "Oi"] }
      = some { get_initial_state with
          messages := [Msg.human "Oi", Msg.ai FALLBACK_TEXT []] } := by
  have h := c8_backend_failure_fallback (fun _ _ => LLMResult.raise)
    (fun _ _ => rfl) (fun _ _ => Outcome.err) 0
    { get_initial_state with messages := [Msg.human "Oi"] }
  exact h

-- ---------------------------------------------------------------------------
-- C9: unknown tool names are absorbed
-- ---------------------------------------------------------------------------

/-- C9: a pending request naming a tool absent from the registry produces
exactly one tool-result message — the synthesized unavailable-tool text —
with the request's call id and name, an empty state-update dict (so every
side-channel field of the merged state is unchanged), and the router sends
control back to the very agent the entry router had picked. -/
theorem c9_unknown_tool_absorbed (oracle : Nat → Outcome) (s : AgentState)
    (ct : String) (c : ToolCall)
    (h1 : s.messages.getLast? = some (Msg.ai ct [c]))
    (h2 : registered c.name = false) :
    tool_node oracle s
      = ⟨[⟨unavailableMsg c.name, c.id, c.name⟩], {}⟩ ∧
    applyUpdates s (tool_node oracle s)
      = { s with messages :=
            s.messages ++ [Msg.tool (unavailableMsg c.name) c.id c.name] } ∧
    route_after_tools (applyUpdates s (tool_node oracle s)) = route_entry s := by
  have hp : pendingCalls s = [c] := by
    simp [pendingCalls, h1]
  have ht : tool_node oracle s
      = ⟨[⟨unavailableMsg c.name, c.id, c.name⟩], {}⟩ := by
    rw [show tool_node oracle s = runBatch oracle s (pendingCalls s) from rfl, hp]
    simp [runBatch, runCalls, runCall, h2]
  refine ⟨ht, ?_, ?_⟩
  · rw [ht]; rfl
  · rw [ht]; rfl

/-- Witness for C9: the repository has no tool named "foo_tool"; its
pending request yields the unavailable-result message, full state
preservation and same-agent routing. -/
theorem c9_witness :
    tool_node (fun _ => Outcome.err)
        { get_initial_state with
            messages := [Msg.ai "" [⟨"foo_tool", [], "call_1"⟩]] }
      = ⟨[⟨unavailableMsg "foo_tool", "call_1", "foo_tool"⟩], {}⟩ ∧
    route_after_tools
        (applyUpdates
          { get_initial_state with
              messages := [Msg.ai "" [⟨"foo_tool", [], "call_1"⟩]] }
          (tool_node (fun _ => Outcome.err)
            { get_initial_state with
                messages := [Msg.ai "" [⟨"foo_tool", [], "call_1"⟩]] }))
      = route_entry
          { get_initial_state with
              messages := [Msg.ai "" [⟨"foo_tool", [], "call_1"⟩]] } := by
  have h := c9_unknown_tool_absorbed (fun _ => Outcome.err)
    { get_initial_state with messages := [Msg.ai "" [⟨"foo_tool", [], "call_1"⟩]] }
    "" ⟨"foo_tool", [], "call_1"⟩ (by decide) (by decide)
  exact ⟨h.1, h.2.2⟩

end Bank
